import Mathlib

/-!
Shallow embedding of the GLib table binding of Apache Arrow
(`c_glib/arrow-glib/table.cpp`) together with the minimal parts of its
collaborators that the binding touches: the native `arrow::Table` value,
`std::shared_ptr` reference counting, and the GObject property machinery.

The native engine (`arrow::Table`, `arrow::Schema`, `arrow::Column`) and the
GLib object framework are not part of the sources under verification; they are
modelled from the specification, each such definition carries a doc comment
saying so.  Everything translated from `table.cpp` follows that file line by
line.
-/

/-- Modelled from the spec: the data-type descriptors of the wrapped engine
(`arrow::DataType`).  The binding only enumerates them (int8, uint16,
double, ...); the claims only need the existence of an integer type. -/
inductive ArrowType where
  | int8
  | uint16
  | float64
deriving DecidableEq, Repr

/-- Modelled from the spec: a named, typed field of a schema
(`arrow::Field`). -/
structure ArrowField where
  name : String
  type : ArrowType
deriving DecidableEq, Repr

/-- Modelled from the spec: a schema of the wrapped engine (`arrow::Schema`),
a list of named fields. -/
structure ArrowSchema where
  fields : List ArrowField
deriving DecidableEq, Repr

/-- Modelled from the spec: a column of the wrapped engine (`arrow::Column`):
a named, typed sequence of values; only its name, type and length matter to
the binding layer. -/
structure ArrowColumn where
  name : String
  type : ArrowType
  length : Nat
deriving DecidableEq, Repr

/-- Modelled from the spec: the native table value of the wrapped engine
(`arrow::Table`): "a table composed of named columns and a schema", carrying
a name.  Not under the sources being verified; faithful to the spec's data
model (section 3) and glossary. -/
structure ArrowTable where
  name : String
  schema : ArrowSchema
  columns : List ArrowColumn
deriving DecidableEq, Repr

/-- Modelled from the spec: the engine's own column count, the number of
sub-elements of the composite value. -/
def ArrowTable.num_columns (t : ArrowTable) : Nat :=
  t.columns.length

/-- Modelled from the spec: the engine's own row count ("zero or more
records"); a table built from columns has as many rows as its columns are
long, zero when there are none. -/
def ArrowTable.num_rows (t : ArrowTable) : Nat :=
  match t.columns with
  | [] => 0
  | c :: _ => c.length

/-- Modelled from the spec: the engine's own unchecked indexing
(`arrow::Table::column(i)`).  Out of range the engine's behaviour is
undefined; `none` marks that undefined outcome. -/
def ArrowTable.column (t : ArrowTable) (i : Nat) : Option ArrowColumn :=
  t.columns.get? i

/-- A `std::shared_ptr<arrow::Table>`: either null or a reference to a
heap-allocated control block identified by a natural number. -/
abbrev SharedPtr := Option Nat

/-- The reference-counting heap of the wrapped engine: control blocks hold a
native table value together with its use count.  `next` is the next fresh
block identifier. -/
structure Heap where
  next : Nat
  blocks : Nat → Option (ArrowTable × Nat)

/-- Rewrite the use count of block `i` by `f`, leaving the stored value and
every other block untouched. -/
def Heap.adjust (h : Heap) (i : Nat) (f : Nat → Nat) : Heap :=
  { h with
    blocks := fun j => if j = i then (h.blocks j).map (fun e => (e.1, f e.2)) else h.blocks j }

/-- Taking one more shared reference to the block a pointer designates; a
null pointer takes none. -/
def Heap.incr (h : Heap) : SharedPtr → Heap
  | none => h
  | some i => h.adjust i (· + 1)

/-- Releasing one shared reference held through a pointer; a null pointer
releases none. -/
def Heap.decr (h : Heap) : SharedPtr → Heap
  | none => h
  | some i => h.adjust i (· - 1)

/-- Copy assignment of a `shared_ptr` slot: the source gains a reference and
the value previously held by the destination loses one. -/
def Heap.assign (h : Heap) (old src : SharedPtr) : Heap :=
  (h.incr src).decr old

/-- Dereference a shared pointer: the stored native value, `none` when the
pointer is null or the block is gone (undefined behaviour in the source). -/
def Heap.deref (h : Heap) (p : SharedPtr) : Option ArrowTable :=
  match p with
  | none => none
  | some i => (h.blocks i).map Prod.fst

/-- The use count of block `i`, zero when the block does not exist. -/
def Heap.useCount (h : Heap) (i : Nat) : Nat :=
  match h.blocks i with
  | none => 0
  | some e => e.2

/-- Allocation performed by `std::make_shared<arrow::Table>`: a fresh control
block holding the value with use count one, returned with the pointer to it. -/
def Heap.alloc (h : Heap) (t : ArrowTable) : SharedPtr × Heap :=
  (some h.next,
   { next := h.next + 1,
     blocks := fun j => if j = h.next then some (t, 1) else h.blocks j })

/-- Modelled from the spec: a schema handle (`GArrowSchema`), a boundary
object whose private state holds the native schema; `schema.cpp` is not
under the sources being verified. -/
structure GArrowSchema where
  schema : ArrowSchema
deriving DecidableEq, Repr

/-- Modelled from the spec: the internal unwrap `garrow_schema_get_raw`. -/
def garrow_schema_get_raw (s : GArrowSchema) : ArrowSchema :=
  s.schema

/-- Modelled from the spec: the internal construct-from-existing path
`garrow_schema_new_raw`, wrapping a native schema in a new handle. -/
def garrow_schema_new_raw (s : ArrowSchema) : GArrowSchema :=
  ⟨s⟩

/-- Modelled from the spec: a column handle (`GArrowColumn`); `column.cpp`
is not under the sources being verified. -/
structure GArrowColumn where
  column : ArrowColumn
deriving DecidableEq, Repr

/-- Modelled from the spec: the internal unwrap `garrow_column_get_raw`. -/
def garrow_column_get_raw (c : GArrowColumn) : ArrowColumn :=
  c.column

/-- Modelled from the spec: the internal construct-from-existing path
`garrow_column_new_raw`, wrapping a native column in a new handle. -/
def garrow_column_new_raw (c : ArrowColumn) : GArrowColumn :=
  ⟨c⟩

/-- The private instance state of a `GArrowTable`
(`GArrowTablePrivate` in `table.cpp`): one `shared_ptr<arrow::Table>`. -/
structure GArrowTablePrivate where
  table : SharedPtr
deriving DecidableEq, Repr

/-- The property-id enumeration of `table.cpp`: `PROP_0`. -/
def PROP_0 : Nat := 0

/-- The property-id enumeration of `table.cpp`: `PROP_TABLE`. -/
def PROP_TABLE : Nat := 1

/-- A framework warning emitted by `G_OBJECT_WARN_INVALID_PROPERTY_ID`,
recording the offending property id. -/
structure InvalidPropertyWarning where
  prop_id : Nat
deriving DecidableEq, Repr

/-- A non-recoverable fault: dereferencing a null pointer is undefined
behaviour that terminates the program, not a recoverable error. -/
inductive Crash where
  | nullDeref
deriving DecidableEq, Repr

/-- The content of the `GValue` used for the `"table"` property: a `gpointer`
that is either NULL or a valid pointer to a `shared_ptr<arrow::Table>`. -/
abbrev GValue := Option SharedPtr

/-- Translation of `garrow_table_dispose` (`table.cpp` lines 56-66):
`priv->table = nullptr;` releases the reference the `shared_ptr` held and
leaves the slot null, then chains to the parent dispose (no state here). -/
def garrow_table_dispose (h : Heap) (priv : GArrowTablePrivate) :
    GArrowTablePrivate × Heap :=
  (⟨none⟩, h.decr priv.table)

/-- Translation of `garrow_table_set_property` (`table.cpp` lines 68-87).
For `PROP_TABLE` it dereferences the pointer stored in the `GValue`
(`*static_cast<std::shared_ptr<arrow::Table> *>(g_value_get_pointer(value))`,
crashing on NULL) and copy-assigns it into `priv->table`; any other id is
warned about and ignored. -/
def garrow_table_set_property (h : Heap) (priv : GArrowTablePrivate)
    (prop_id : Nat) (value : GValue) :
    Except Crash (GArrowTablePrivate × Heap × List InvalidPropertyWarning) :=
  if prop_id = PROP_TABLE then
    match value with
    | none => .error .nullDeref
    | some p => .ok (⟨p⟩, h.assign priv.table p, [])
  else
    .ok (priv, h, [⟨prop_id⟩])

/-- Translation of `garrow_table_get_property` (`table.cpp` lines 89-100):
the switch has only a default branch, so every property id — the valid
`PROP_TABLE` included — is warned about and the out-value and instance are
left untouched. -/
def garrow_table_get_property (priv : GArrowTablePrivate) (prop_id : Nat)
    (value : GValue) :
    GArrowTablePrivate × GValue × List InvalidPropertyWarning :=
  (priv, value, [⟨prop_id⟩])

/-- The parameter flags a `GParamSpec` carries that matter here. -/
structure GParamSpec where
  name : String
  readable : Bool
  writable : Bool
  construct_only : Bool
deriving DecidableEq, Repr

/-- Translation of the `g_param_spec_pointer` installed by
`garrow_table_class_init` (`table.cpp` lines 119-124): the `"table"`
property with flags `G_PARAM_WRITABLE | G_PARAM_CONSTRUCT_ONLY` — writable,
not readable, construct-only. -/
def garrow_table_table_pspec : GParamSpec :=
  { name := "table", readable := false, writable := true, construct_only := true }

/-- Modelled from the spec: the boundary framework's property-set entry
point (`g_object_set` of GLib, not under the sources being verified) applied
to the `"table"` property of an already constructed handle.  Per the spec, a
write-once-at-construction property "is rejected by the framework" after
construction: the framework checks the installed pspec, warns, and never
invokes the class setter, so instance and heap are unchanged. -/
def g_object_set_table (h : Heap) (priv : GArrowTablePrivate) (value : GValue) :
    Except Crash (GArrowTablePrivate × Heap × List InvalidPropertyWarning) :=
  if garrow_table_table_pspec.writable && !garrow_table_table_pspec.construct_only then
    garrow_table_set_property h priv PROP_TABLE value
  else
    .ok (priv, h, [⟨PROP_TABLE⟩])

/-- Modelled from the spec: `g_object_new(GARROW_TYPE_TABLE, ...)` (GLib, not
under the sources being verified).  The framework allocates the instance with
zero-initialized private state (a null `shared_ptr`), runs the empty
`garrow_table_init`, then sets every construct-only property through the
class setter, using the supplied `GValue` or, when the caller supplied none,
the pspec's default — NULL for a pointer property. -/
def g_object_new_table (h : Heap) (supplied : Option GValue) :
    Except Crash (GArrowTablePrivate × Heap) :=
  match garrow_table_set_property h ⟨none⟩ PROP_TABLE (supplied.getD none) with
  | .ok (priv, h2, _) => .ok (priv, h2)
  | .error e => .error e

/-- Translation of `garrow_table_new_raw` (`table.cpp` lines 224-231):
`g_object_new` with the `"table"` property set to a valid pointer to the
caller's `shared_ptr`. -/
def garrow_table_new_raw (h : Heap) (arrow_table : SharedPtr) :
    Except Crash (GArrowTablePrivate × Heap) :=
  g_object_new_table h (some (some arrow_table))

/-- Translation of `garrow_table_get_raw` (`table.cpp` lines 233-240): the
`shared_ptr` stored in the private state.  (The source returns a copy whose
lifetime ends inside each accessor; the transient count bump and matching
drop cancel and are elided.) -/
def garrow_table_get_raw (table : GArrowTablePrivate) : SharedPtr :=
  table.table

/-- Translation of `garrow_table_new` (`table.cpp` lines 135-151): unwrap the
column handles, `make_shared` a native table from the name, the unwrapped
schema and the columns, wrap it via `garrow_table_new_raw`; the local
`shared_ptr` is destroyed when the function returns. -/
def garrow_table_new (h : Heap) (name : String) (schema : GArrowSchema)
    (columns : List GArrowColumn) : Except Crash (GArrowTablePrivate × Heap) :=
  let arrow_columns := columns.map garrow_column_get_raw
  let alloc := h.alloc ⟨name, garrow_schema_get_raw schema, arrow_columns⟩
  match garrow_table_new_raw alloc.2 alloc.1 with
  | .ok (table, h2) => .ok (table, h2.decr alloc.1)
  | .error e => .error e

/-- Translation of `garrow_table_get_name` (`table.cpp` lines 159-164):
`arrow_table->name().c_str()`, a borrowed pointer into the native value's own
string; `none` marks the undefined behaviour of dereferencing a dead
pointer. -/
def garrow_table_get_name (h : Heap) (table : GArrowTablePrivate) : Option String :=
  (h.deref (garrow_table_get_raw table)).map ArrowTable.name

/-- Translation of `garrow_table_get_schema` (`table.cpp` lines 172-178):
wrap the native table's schema in a fresh schema handle, ownership
transferred to the caller. -/
def garrow_table_get_schema (h : Heap) (table : GArrowTablePrivate) :
    Option GArrowSchema :=
  (h.deref (garrow_table_get_raw table)).map
    (fun t => garrow_schema_new_raw t.schema)

/-- Translation of `garrow_table_get_column` (`table.cpp` lines 187-194):
`arrow_table->column(i)` with `i` passed through unchanged — no bounds check
at this layer — then wrapped in a fresh column handle.  An inner `none` is
the native engine's own out-of-range (undefined) outcome. -/
def garrow_table_get_column (h : Heap) (table : GArrowTablePrivate) (i : Nat) :
    Option (Option GArrowColumn) :=
  (h.deref (garrow_table_get_raw table)).map
    (fun t => (t.column i).map garrow_column_new_raw)

/-- Translation of `garrow_table_get_n_columns` (`table.cpp` lines 202-207):
`arrow_table->num_columns()`. -/
def garrow_table_get_n_columns (h : Heap) (table : GArrowTablePrivate) : Option Nat :=
  (h.deref (garrow_table_get_raw table)).map ArrowTable.num_columns

/-- Translation of `garrow_table_get_n_rows` (`table.cpp` lines 215-220):
`arrow_table->num_rows()`. -/
def garrow_table_get_n_rows (h : Heap) (table : GArrowTablePrivate) : Option Nat :=
  (h.deref (garrow_table_get_raw table)).map ArrowTable.num_rows

/-! Helper lemmas about the reference-counting heap. -/

theorem Heap.deref_adjust (h : Heap) (i : Nat) (f : Nat → Nat) (p : SharedPtr) :
    (h.adjust i f).deref p = h.deref p := by
  cases p with
  | none => rfl
  | some j =>
    simp only [Heap.deref, Heap.adjust]
    by_cases hj : j = i
    · subst hj
      simp only [if_pos rfl]
      cases h.blocks j <;> rfl
    · simp [hj]

theorem Heap.deref_incr (h : Heap) (p q : SharedPtr) :
    (h.incr p).deref q = h.deref q := by
  cases p with
  | none => rfl
  | some i => exact Heap.deref_adjust h i (· + 1) q

theorem Heap.deref_decr (h : Heap) (p q : SharedPtr) :
    (h.decr p).deref q = h.deref q := by
  cases p with
  | none => rfl
  | some i => exact Heap.deref_adjust h i (· - 1) q

theorem Heap.blocks_adjust_self (h : Heap) (i : Nat) (f : Nat → Nat)
    (V : ArrowTable) (c : Nat) (hb : h.blocks i = some (V, c)) :
    (h.adjust i f).blocks i = some (V, f c) := by
  simp [Heap.adjust, hb]

theorem Heap.useCount_of_blocks (h : Heap) (i : Nat) (V : ArrowTable) (c : Nat)
    (hb : h.blocks i = some (V, c)) : h.useCount i = c := by
  simp [Heap.useCount, hb]

theorem Heap.deref_of_blocks (h : Heap) (i : Nat) (V : ArrowTable) (c : Nat)
    (hb : h.blocks i = some (V, c)) : h.deref (some i) = some V := by
  simp [Heap.deref, hb]

theorem Heap.deref_alloc_self (h : Heap) (t : ArrowTable) :
    (h.alloc t).2.deref (some h.next) = some t := by
  simp [Heap.alloc, Heap.deref]

theorem Heap.blocks_alloc_self (h : Heap) (t : ArrowTable) :
    (h.alloc t).2.blocks h.next = some (t, 1) := by
  simp [Heap.alloc]

theorem garrow_table_new_raw_eq (h : Heap) (p : SharedPtr) :
    garrow_table_new_raw h p = .ok (⟨p⟩, h.incr p) := rfl

theorem garrow_table_new_eq (h : Heap) (name : String) (schema : GArrowSchema)
    (columns : List GArrowColumn) :
    garrow_table_new h name schema columns =
      .ok (⟨some h.next⟩,
        (((h.alloc ⟨name, garrow_schema_get_raw schema,
            columns.map garrow_column_get_raw⟩).2.incr (some h.next)).decr
          (some h.next))) := rfl

/-! The claims. -/

/-- C1: for every constructed table handle wrapping a native table value,
each accessor returns exactly what the native value itself answers:
`garrow_table_get_n_columns` its `num_columns()`, `garrow_table_get_n_rows`
its `num_rows()`, and `garrow_table_get_name` the bytes of its own name
string (the handle's stored reference still designates the live value, so
the borrowed string stays valid while the handle holds it). -/
theorem garrow_table_accessors_agree (h : Heap) (H : GArrowTablePrivate)
    (i : Nat) (V : ArrowTable) (c : Nat)
    (hH : H.table = some i) (hV : h.blocks i = some (V, c)) :
    garrow_table_get_n_columns h H = some (ArrowTable.num_columns V) ∧
    garrow_table_get_n_rows h H = some (ArrowTable.num_rows V) ∧
    garrow_table_get_name h H = some (ArrowTable.name V) ∧
    h.deref H.table = some V := by
  have hd : h.deref (garrow_table_get_raw H) = some V := by
    rw [garrow_table_get_raw, hH]
    exact Heap.deref_of_blocks h i V c hV
  refine ⟨?_, ?_, ?_, ?_⟩
  · rw [garrow_table_get_n_columns, hd]; rfl
  · rw [garrow_table_get_n_rows, hd]; rfl
  · rw [garrow_table_get_name, hd]; rfl
  · rw [hH]; exact Heap.deref_of_blocks h i V c hV

/-- Witness for C1 at a one-block heap holding a concrete two-column table. -/
theorem garrow_table_accessors_agree_witness :
    garrow_table_get_n_columns
        ⟨1, fun j => if j = 0 then some (⟨"w", ⟨[]⟩, [⟨"a", ArrowType.int8, 3⟩, ⟨"b", ArrowType.float64, 3⟩]⟩, 1) else none⟩
        ⟨some 0⟩ = some 2 ∧
    garrow_table_get_n_rows
        ⟨1, fun j => if j = 0 then some (⟨"w", ⟨[]⟩, [⟨"a", ArrowType.int8, 3⟩, ⟨"b", ArrowType.float64, 3⟩]⟩, 1) else none⟩
        ⟨some 0⟩ = some 3 ∧
    garrow_table_get_name
        ⟨1, fun j => if j = 0 then some (⟨"w", ⟨[]⟩, [⟨"a", ArrowType.int8, 3⟩, ⟨"b", ArrowType.float64, 3⟩]⟩, 1) else none⟩
        ⟨some 0⟩ = some "w" := by
  have hc := garrow_table_accessors_agree
    ⟨1, fun j => if j = 0 then some (⟨"w", ⟨[]⟩, [⟨"a", ArrowType.int8, 3⟩, ⟨"b", ArrowType.float64, 3⟩]⟩, 1) else none⟩
    ⟨some 0⟩ 0 ⟨"w", ⟨[]⟩, [⟨"a", ArrowType.int8, 3⟩, ⟨"b", ArrowType.float64, 3⟩]⟩ 1 rfl rfl
  exact ⟨hc.1, hc.2.1, hc.2.2.1⟩

/-- C2: building a table handle through `garrow_table_new` from any list of
column handles and reading the column count back through
`garrow_table_get_n_columns` yields exactly the length of that list — for
zero, one or many columns. -/
theorem garrow_table_new_column_count (h : Heap) (name : String)
    (schema : GArrowSchema) (columns : List GArrowColumn) :
    ∃ H h2, garrow_table_new h name schema columns = .ok (H, h2) ∧
      garrow_table_get_n_columns h2 H = some columns.length := by
  refine ⟨_, _, garrow_table_new_eq h name schema columns, ?_⟩
  have hd := Heap.deref_alloc_self h
    ⟨name, garrow_schema_get_raw schema, columns.map garrow_column_get_raw⟩
  simp only [garrow_table_get_n_columns, garrow_table_get_raw,
    Heap.deref_decr, Heap.deref_incr, hd]
  simp [ArrowTable.num_columns]

/-- C3: the concrete scenario — a table built by `garrow_table_new` with
name `"t"`, a one-field schema `"a"` of an integer type and a single
zero-length column `"a"` reports name `"t"`, one column, zero rows, and the
wrapped column returned by `garrow_table_get_column` at index 0 is named
`"a"`. -/
theorem garrow_table_scenario_t :
    ∃ H h2,
      garrow_table_new ⟨0, fun _ => none⟩ "t"
          (garrow_schema_new_raw ⟨[⟨"a", ArrowType.int8⟩]⟩)
          [garrow_column_new_raw ⟨"a", ArrowType.int8, 0⟩] = .ok (H, h2) ∧
      garrow_table_get_name h2 H = some "t" ∧
      garrow_table_get_n_columns h2 H = some 1 ∧
      garrow_table_get_n_rows h2 H = some 0 ∧
      (garrow_table_get_column h2 H 0).map
          (Option.map (fun c => (garrow_column_get_raw c).name)) =
        some (some (some "a")) := by
  exact ⟨_, _, rfl, rfl, rfl, rfl, rfl⟩

/-- C4: `garrow_table_dispose` leaves the stored reference explicitly null
and releases exactly one reference to the value it held; running it a second
time on the resulting state changes nothing — no double release. -/
theorem garrow_table_dispose_idempotent (h : Heap) (priv : GArrowTablePrivate) :
    (garrow_table_dispose h priv).1.table = none ∧
    (garrow_table_dispose h priv).2 = h.decr priv.table ∧
    garrow_table_dispose (garrow_table_dispose h priv).2
        (garrow_table_dispose h priv).1 = garrow_table_dispose h priv := by
  exact ⟨rfl, rfl, rfl⟩

/-- C5: the `"table"` property is installed construct-only, and the
framework's property-set entry point rejects any attempt to set it again
after construction with an invalid-access warning, leaving the stored
reference and the heap unchanged. -/
theorem garrow_table_set_after_construction_rejected (h : Heap)
    (priv : GArrowTablePrivate) (value : GValue) :
    garrow_table_table_pspec.construct_only = true ∧
    garrow_table_table_pspec.writable = true ∧
    g_object_set_table h priv value = .ok (priv, h, [⟨PROP_TABLE⟩]) := by
  exact ⟨rfl, rfl, rfl⟩

/-- C6: constructing the handle without supplying the native reference — the
property absent (framework falls back to the NULL pspec default) or supplied
as a NULL pointer — dereferences NULL inside the setter: a non-recoverable
crash, never a usable handle and never a recoverable typed error. -/
theorem g_object_new_table_missing_value_crashes (h : Heap) :
    g_object_new_table h none = .error Crash.nullDeref ∧
    g_object_new_table h (some none) = .error Crash.nullDeref ∧
    ∀ r : GArrowTablePrivate × Heap, g_object_new_table h none ≠ .ok r := by
  refine ⟨rfl, rfl, fun r hr => ?_⟩
  rw [show g_object_new_table h none = .error Crash.nullDeref from rfl] at hr
  exact Except.noConfusion hr

/-- A concrete native table, heap and handle reused by several witnesses. -/
def exampleTable : ArrowTable :=
  ⟨"w", ⟨[⟨"a", ArrowType.int8⟩, ⟨"b", ArrowType.float64⟩]⟩,
   [⟨"a", ArrowType.int8, 3⟩, ⟨"b", ArrowType.float64, 3⟩]⟩

/-- A one-block heap whose block 0 holds `exampleTable` with use count one. -/
def exampleHeap : Heap :=
  ⟨1, fun j => if j = 0 then some (exampleTable, 1) else none⟩

/-- A table handle whose stored shared pointer designates block 0. -/
def exampleHandle : GArrowTablePrivate := ⟨some 0⟩

/-- C7: `garrow_table_get_column` hands the index to the native
`arrow::Table::column` unchanged — the wrapper result is exactly the native
result wrapped, it re-checks no bounds and produces no error value of its
own; out of range the result is the native engine's own (undefined)
out-of-range outcome, marked `some none`. -/
theorem garrow_table_get_column_forwards (h : Heap) (H : GArrowTablePrivate)
    (iN i : Nat) (V : ArrowTable) (c : Nat)
    (hH : H.table = some iN) (hV : h.blocks iN = some (V, c)) :
    garrow_table_get_column h H i =
      some ((ArrowTable.column V i).map garrow_column_new_raw) ∧
    (ArrowTable.num_columns V ≤ i → garrow_table_get_column h H i = some none) := by
  have hd : h.deref (garrow_table_get_raw H) = some V := by
    rw [garrow_table_get_raw, hH]
    exact Heap.deref_of_blocks h iN V c hV
  constructor
  · rw [garrow_table_get_column, hd]; rfl
  · intro hle
    rw [garrow_table_get_column, hd]
    have hnone : ArrowTable.column V i = none := by
      rw [ArrowTable.column]
      exact List.get?_eq_none.mpr hle
    show some ((ArrowTable.column V i).map garrow_column_new_raw) = some none
    rw [hnone]
    rfl

/-- Witness for C7: index 5 is out of range for the two-column example
table, and the wrapper returns the native out-of-range outcome. -/
theorem garrow_table_get_column_forwards_witness :
    garrow_table_get_column exampleHeap exampleHandle 5 =
      some ((ArrowTable.column exampleTable 5).map garrow_column_new_raw) ∧
    (ArrowTable.num_columns exampleTable ≤ 5 →
      garrow_table_get_column exampleHeap exampleHandle 5 = some none) :=
  garrow_table_get_column_forwards exampleHeap exampleHandle 0 5
    exampleTable 1 rfl rfl

/-- C8: wrapping a native value through `garrow_table_new_raw` raises its use
count by exactly one, disposing the resulting handle lowers it by exactly
one; wrap-then-dispose returns the count to where it started, a second wrap
of the same value adds exactly one more, and once the remaining outside
holder also releases the count is one below where it started — reaching zero
exactly once when that outside holder was the last. -/
theorem garrow_table_new_raw_refcount (h : Heap) (i : Nat) (V : ArrowTable)
    (c : Nat) (hV : h.blocks i = some (V, c)) :
    ∃ H h1, garrow_table_new_raw h (some i) = .ok (H, h1) ∧
      Heap.useCount h1 i = c + 1 ∧
      Heap.useCount (garrow_table_dispose h1 H).2 i = c ∧
      Heap.useCount ((garrow_table_dispose h1 H).2.decr (some i)) i = c - 1 ∧
      ∃ H2 h2, garrow_table_new_raw h1 (some i) = .ok (H2, h2) ∧
        Heap.useCount h2 i = c + 2 ∧
        Heap.useCount
          (garrow_table_dispose (garrow_table_dispose h2 H2).2 H).2 i = c := by
  have hb1 : (h.incr (some i)).blocks i = some (V, c + 1) :=
    Heap.blocks_adjust_self h i (· + 1) V c hV
  have hb2 : ((h.incr (some i)).decr (some i)).blocks i = some (V, c) := by
    have hx := Heap.blocks_adjust_self (h.incr (some i)) i (· - 1) V (c + 1) hb1
    simpa using hx
  have hb3 : (((h.incr (some i)).decr (some i)).decr (some i)).blocks i
      = some (V, c - 1) :=
    Heap.blocks_adjust_self ((h.incr (some i)).decr (some i)) i (· - 1) V c hb2
  have hb4 : ((h.incr (some i)).incr (some i)).blocks i = some (V, c + 2) :=
    Heap.blocks_adjust_self (h.incr (some i)) i (· + 1) V (c + 1) hb1
  have hb5 : (((h.incr (some i)).incr (some i)).decr (some i)).blocks i
      = some (V, c + 1) := by
    have hx := Heap.blocks_adjust_self ((h.incr (some i)).incr (some i)) i
      (· - 1) V (c + 2) hb4
    simpa using hx
  have hb6 : ((((h.incr (some i)).incr (some i)).decr (some i)).decr
      (some i)).blocks i = some (V, c) := by
    have hx := Heap.blocks_adjust_self
      (((h.incr (some i)).incr (some i)).decr (some i)) i (· - 1) V (c + 1) hb5
    simpa using hx
  refine ⟨⟨some i⟩, h.incr (some i), rfl,
    Heap.useCount_of_blocks _ i V (c + 1) hb1,
    Heap.useCount_of_blocks _ i V c hb2,
    Heap.useCount_of_blocks _ i V (c - 1) hb3,
    ⟨some i⟩, (h.incr (some i)).incr (some i), rfl,
    Heap.useCount_of_blocks _ i V (c + 2) hb4,
    Heap.useCount_of_blocks _ i V c hb6⟩

/-- Witness for C8 on the one-block example heap with initial use count
one. -/
theorem garrow_table_new_raw_refcount_witness :
    ∃ H h1, garrow_table_new_raw exampleHeap (some 0) = .ok (H, h1) ∧
      Heap.useCount h1 0 = 2 ∧
      Heap.useCount (garrow_table_dispose h1 H).2 0 = 1 ∧
      Heap.useCount ((garrow_table_dispose h1 H).2.decr (some 0)) 0 = 0 ∧
      ∃ H2 h2, garrow_table_new_raw h1 (some 0) = .ok (H2, h2) ∧
        Heap.useCount h2 0 = 3 ∧
        Heap.useCount
          (garrow_table_dispose (garrow_table_dispose h2 H2).2 H).2 0 = 1 :=
  garrow_table_new_raw_refcount exampleHeap 0 exampleTable 1 rfl

/-- C9: the nested-value accessors return fresh handles owning the native
sub-values: `garrow_table_get_schema` a new schema handle whose stored
native reference is the table's own schema, `garrow_table_get_column` at any
valid index a new column handle whose stored native reference is the i-th
native column — handles of their own kind, distinct objects from the table
handle. -/
theorem garrow_table_nested_accessors_wrap (h : Heap) (H : GArrowTablePrivate)
    (i : Nat) (V : ArrowTable) (c : Nat)
    (hH : H.table = some i) (hV : h.blocks i = some (V, c)) :
    garrow_table_get_schema h H =
      some (garrow_schema_new_raw (ArrowTable.schema V)) ∧
    garrow_schema_get_raw (garrow_schema_new_raw (ArrowTable.schema V)) =
      ArrowTable.schema V ∧
    ∀ j colV, ArrowTable.column V j = some colV →
      garrow_table_get_column h H j = some (some (garrow_column_new_raw colV)) ∧
      garrow_column_get_raw (garrow_column_new_raw colV) = colV := by
  have hd : h.deref (garrow_table_get_raw H) = some V := by
    rw [garrow_table_get_raw, hH]
    exact Heap.deref_of_blocks h i V c hV
  refine ⟨?_, rfl, fun j colV hj => ⟨?_, rfl⟩⟩
  · rw [garrow_table_get_schema, hd]; rfl
  · rw [garrow_table_get_column, hd]
    show some ((ArrowTable.column V j).map garrow_column_new_raw) = _
    rw [hj]
    rfl

/-- Witness for C9 on the example heap: the schema handle wraps the example
table's schema and column 0 comes back wrapped. -/
theorem garrow_table_nested_accessors_wrap_witness :
    garrow_table_get_schema exampleHeap exampleHandle =
      some (garrow_schema_new_raw (ArrowTable.schema exampleTable)) ∧
    garrow_schema_get_raw (garrow_schema_new_raw (ArrowTable.schema exampleTable)) =
      ArrowTable.schema exampleTable ∧
    ∀ j colV, ArrowTable.column exampleTable j = some colV →
      garrow_table_get_column exampleHeap exampleHandle j =
        some (some (garrow_column_new_raw colV)) ∧
      garrow_column_get_raw (garrow_column_new_raw colV) = colV :=
  garrow_table_nested_accessors_wrap exampleHeap exampleHandle 0
    exampleTable 1 rfl rfl

/-- C10: the `"table"` property is write-only: `garrow_table_get_property`
warns about every property id — the valid `PROP_TABLE` included — and leaves
the out-value and the stored reference untouched, and the installed pspec
carries no readable flag, so the wrapped pointer can never be read back. -/
theorem garrow_table_get_property_writeonly (priv : GArrowTablePrivate)
    (prop_id : Nat) (value : GValue) :
    garrow_table_get_property priv prop_id value = (priv, value, [⟨prop_id⟩]) ∧
    garrow_table_get_property priv PROP_TABLE value =
      (priv, value, [⟨PROP_TABLE⟩]) ∧
    garrow_table_table_pspec.readable = false := by
  exact ⟨rfl, rfl, rfl⟩
